import Mathlib

/-!
Shallow embedding of the personal email/Slack assistant core:
the draft lifecycle store (src/assistant/drafts/store.py), the SQLite schema
(src/assistant/db.py), the Slack interactive handlers
(src/assistant/slack_monitor/listener.py), the email classifier
(src/assistant/email/classifier.py) and the email scan loop
(src/assistant/email/scanner.py).

Python timestamps (datetime.utcnow) are modelled as Nat clock values passed in
by the caller; SQLite tables are modelled as Lean lists of rows; external side
effects (Gmail send/archive, Slack notifications, the completion service) are
modelled as emitted events and as oracle function parameters.
-/

/-- Mirrors models.DraftStatus (six string-enum values). -/
inductive DraftStatus where
  | pending_review
  | approved
  | rejected
  | sent
  | skipped
  | expired
deriving DecidableEq, Repr

/-- Mirrors models.DraftSource. -/
inductive DraftSource where
  | email
  | slack
deriving DecidableEq, Repr

/-- Mirrors one row of the drafts table in db.SCHEMA / models.Draft.
Timestamp columns are Nat clock values; nullable columns are Option. -/
structure Draft where
  id : String
  source : DraftSource
  status : DraftStatus
  created_at : Nat
  original_from : String
  original_subject : Option String
  original_body : String
  original_message_id : String
  original_thread_id : Option String
  original_channel_id : Option String
  category : Option String
  priority : Option String
  summary : Option String
  draft_text : String
  draft_subject : Option String
  slack_notification_ts : Option String
  slack_notification_channel : Option String
  approved_at : Option Nat
  rejected_at : Option Nat
  sent_at : Option Nat
  edited_text : Option String
deriving DecidableEq, Repr

/-- Mirrors one row of processed_messages in db.SCHEMA.
Note the schema declares message_id alone as PRIMARY KEY; source is a plain
NOT NULL column. -/
structure ProcessedRow where
  message_id : String
  source : String
  processed_at : Nat
  classification_json : Option String
deriving DecidableEq, Repr

/-- The SQLite database state: the drafts table, the processed_messages table
and the scan_state row for key gmail_history_id (value modelled as Nat). -/
structure StoreState where
  drafts : List Draft
  processed : List ProcessedRow
  scan_state : Option Nat
deriving DecidableEq, Repr

/-- Python truthiness of an optional string (None and the empty string are
falsy). -/
def pyTruthy : Option String → Bool
  | none => false
  | some s => s != ""

/-- Python `a or b` on an optional string falling back to a string. -/
def pyOrStr : Option String → String → String
  | none, b => b
  | some a, b => if a == "" then b else a

namespace DraftStore

/-- DraftStore.create: INSERT a fresh row with status pending_review and all
timestamp / notification / edited columns NULL, then return the row.
The uuid4 draft id is an input (nondeterministic in the source). -/
def create (now : Nat) (s : StoreState) (draft_id : String) (source : DraftSource)
    (original_from original_body original_message_id draft_text : String)
    (original_subject original_thread_id original_channel_id
      category priority summary draft_subject : Option String) :
    StoreState × Draft :=
  let d : Draft :=
    { id := draft_id
      source := source
      status := DraftStatus.pending_review
      created_at := now
      original_from := original_from
      original_subject := original_subject
      original_body := original_body
      original_message_id := original_message_id
      original_thread_id := original_thread_id
      original_channel_id := original_channel_id
      category := category
      priority := priority
      summary := summary
      draft_text := draft_text
      draft_subject := draft_subject
      slack_notification_ts := none
      slack_notification_channel := none
      approved_at := none
      rejected_at := none
      sent_at := none
      edited_text := none }
  ({ s with drafts := s.drafts ++ [d] }, d)

/-- DraftStore.get: SELECT * FROM drafts WHERE id = ?. -/
def get (s : StoreState) (draft_id : String) : Option Draft :=
  s.drafts.find? (fun d => d.id == draft_id)

/-- The column updates performed by DraftStore.update_status for a given new
status: status always, plus approved_at / rejected_at / sent_at for those three
statuses only (skipped and expired set no timestamp; the schema has no
skipped_at or expired_at column). No column is ever cleared. -/
def applyStatus (now : Nat) (status : DraftStatus) (d : Draft) : Draft :=
  let d0 : Draft := { d with status := status }
  match status with
  | DraftStatus.approved => { d0 with approved_at := some now }
  | DraftStatus.rejected => { d0 with rejected_at := some now }
  | DraftStatus.sent => { d0 with sent_at := some now }
  | _ => d0

/-- DraftStore.update_status: an unconditional UPDATE drafts SET ... WHERE
id = ?; there is no check of the current status (no compare-and-swap). -/
def update_status (now : Nat) (s : StoreState) (draft_id : String)
    (status : DraftStatus) : StoreState :=
  let f := fun d => if d.id == draft_id then applyStatus now status d else d
  { s with drafts := s.drafts.map f }

/-- DraftStore.update_slack_notification. -/
def update_slack_notification (s : StoreState) (draft_id ts channel : String) :
    StoreState :=
  let f := fun (d : Draft) =>
    if d.id == draft_id then
      { d with slack_notification_ts := some ts
               slack_notification_channel := some channel }
    else d
  { s with drafts := s.drafts.map f }

/-- DraftStore.update_edited_text: an unconditional UPDATE of edited_text; no
status check of any kind. -/
def update_edited_text (s : StoreState) (draft_id edited_text : String) :
    StoreState :=
  let f := fun (d : Draft) =>
    if d.id == draft_id then { d with edited_text := some edited_text } else d
  { s with drafts := s.drafts.map f }

/-- DraftStore.get_final_text: Python `draft.edited_text or draft.draft_text`
(None and the empty string both fall back to draft_text). -/
def get_final_text (d : Draft) : String :=
  match d.edited_text with
  | some t => if t == "" then d.draft_text else t
  | none => d.draft_text

/-- DraftStore.is_processed: SELECT 1 FROM processed_messages WHERE
message_id = ? AND source = ?. -/
def is_processed (s : StoreState) (message_id source : String) : Bool :=
  s.processed.any (fun r => r.message_id == message_id && r.source == source)

/-- DraftStore.mark_processed: INSERT OR IGNORE INTO processed_messages.
Because the schema declares PRIMARY KEY (message_id) only, the insert is
ignored whenever any row with the same message_id exists, regardless of its
source. -/
def mark_processed (now : Nat) (s : StoreState) (message_id source : String)
    (classification_json : Option String) : StoreState :=
  if s.processed.any (fun r => r.message_id == message_id) then s
  else { s with processed := s.processed ++
      [{ message_id := message_id, source := source, processed_at := now,
         classification_json := classification_json }] }

end DraftStore

/-- Sanity example: creating a draft yields status pending_review. -/
example :
    ((DraftStore.create 0 ⟨[], [], none⟩ "d1" DraftSource.email
        "a@x" "body" "m1" "text" none none none none none none none).2).status
      = DraftStatus.pending_review := by decide

/-- Mirrors models.EmailCategory (twelve string-enum values). -/
inductive EmailCategory where
  | investor_intro
  | portfolio_request
  | partnership_followup
  | event_invitation
  | deal_flow
  | internal_action
  | internal_fyi
  | scheduling
  | follow_up_needed
  | newsletter
  | marketing
  | automated
deriving DecidableEq, Repr

/-- The .value string of an EmailCategory member. -/
def EmailCategory.value : EmailCategory → String
  | investor_intro => "investor_intro"
  | portfolio_request => "portfolio_request"
  | partnership_followup => "partnership_followup"
  | event_invitation => "event_invitation"
  | deal_flow => "deal_flow"
  | internal_action => "internal_action"
  | internal_fyi => "internal_fyi"
  | scheduling => "scheduling"
  | follow_up_needed => "follow_up_needed"
  | newsletter => "newsletter"
  | marketing => "marketing"
  | automated => "automated"

/-- Mirrors models.EmailPriority. -/
inductive EmailPriority where
  | urgent
  | high
  | standard
deriving DecidableEq, Repr

/-- The .value string of an EmailPriority member. -/
def EmailPriority.value : EmailPriority → String
  | urgent => "urgent"
  | high => "high"
  | standard => "standard"

/-- Rank of a priority: higher number means more important. From the priority
rules in the classification instruction template (URGENT above HIGH above
STANDARD). -/
def EmailPriority.rank : EmailPriority → Nat
  | urgent => 2
  | high => 1
  | standard => 0

/-- Mirrors models.EmailAction. -/
inductive EmailAction where
  | draft_response
  | fyi_only
  | skip
  | archive
deriving DecidableEq, Repr

/-- Mirrors models.EmailClassification. -/
structure EmailClassification where
  category : EmailCategory
  priority : EmailPriority
  action : EmailAction
  summary : String
  draft_guidance : Option String
deriving DecidableEq, Repr

/-- Mirrors models.EmailMessage (the fields the embedded code reads). -/
structure EmailMessage where
  message_id : String
  thread_id : String
  from_email : String
  from_name : Option String
  subject : String
  body_snippet : String
  is_reply : Bool
deriving DecidableEq, Repr

/-- Mirrors models.SlackClassification. -/
structure SlackClassification where
  needs_response : Bool
  reason : String
  urgency : String
  summary : String
  draft_guidance : Option String
deriving DecidableEq, Repr

namespace EmailClassifier

/-- The fallback classification built in the except branch of
EmailClassifier.classify: category internal_fyi, priority standard, action
fyi_only, with a summary naming the unclassified subject. -/
def safeDefault (email : EmailMessage) : EmailClassification :=
  { category := EmailCategory.internal_fyi
    priority := EmailPriority.standard
    action := EmailAction.fyi_only
    summary := "Could not classify: " ++ email.subject
    draft_guidance := none }

/-- EmailClassifier.classify, modelled from the point where the completion
response text is in hand. Parsing the response text (json.loads plus pydantic
validation) is abstracted as an Except value: ok on a well-formed structure,
error on any malformed one (any exception raised inside the try block). The
except branch catches every exception and returns safeDefault, so the function
is total and never propagates an error. -/
def classify (parseResult : Except String EmailClassification)
    (email : EmailMessage) : EmailClassification :=
  match parseResult with
  | Except.ok c => c
  | Except.error _ => safeDefault email

end EmailClassifier

/-- Observable side effects and pipeline steps emitted by the handlers and the
scan loop, in invocation order. -/
inductive Event where
  | gmailSendReply (thread_id : Option String) (recipient body : String)
      (subject : Option String)
  | gmailSendFailed (draft_id : String)
  | gmailArchive (message_id : String)
  | logError (msg : String)
  | recordEditDiff (draft_id original edited : String)
  | notifyUpdateStatus (channel ts label : String)
  | chatUpdate (channel ts : String)
  | classifyEmail (message_id : String)
  | classifySlack (ts : String)
  | generateDraft (message_id : String)
  | sendEphemeralDraft (channel thread_ts text : String)
  | notifyEmailDraft (draft_id : String)
  | notifyFyi (message_id : String)
  | markProcessedEv (message_id source : String)
  | createDraftEv (draft_id : String)
deriving DecidableEq, Repr

/-- True for the retriable side effects named by the dedup contract (draft
creation, notification, archiving, sending, draft generation); false for the
classification step and the mark-processed write themselves. -/
def retriableSideEffect : Event → Bool
  | Event.classifyEmail _ => false
  | Event.classifySlack _ => false
  | Event.markProcessedEv _ _ => false
  | Event.logError _ => false
  | _ => true

/-- True only for a successful Gmail send event. -/
def isGmailSendReply : Event → Bool
  | Event.gmailSendReply _ _ _ _ => true
  | _ => false

/-- True only for a Gmail archive event. -/
def isGmailArchive : Event → Bool
  | Event.gmailArchive _ => true
  | _ => false

/-- True only for a logError event. -/
def isLogError : Event → Bool
  | Event.logError _ => true
  | _ => false

namespace SlackMonitor

/-- Tail of SlackMonitor._handle_approve after a successful external send (or
directly for a Slack-source draft, which has no send step): unconditionally
update the status to sent, record an edit diff when the draft was edited
(Python truthiness), re-read the draft and update the Slack notification when
the notification handle is truthy. -/
def approveFinish (now : Nat) (s : StoreState) (draft_id : String)
    (draft : Draft) (evs : List Event) : StoreState × List Event :=
  let s1 := DraftStore.update_status now s draft_id DraftStatus.sent
  let editEvs := match draft.edited_text with
    | some t => if t == "" then [] else [Event.recordEditDiff draft_id draft.draft_text t]
    | none => []
  let notifyEvs := match DraftStore.get s1 draft_id with
    | some d2 =>
      match d2.slack_notification_ts, d2.slack_notification_channel with
      | some ts, some ch =>
        if ts != "" && ch != "" then [Event.notifyUpdateStatus ch ts "Sent"] else []
      | _, _ => []
    | none => []
  (s1, evs ++ editEvs ++ notifyEvs)

/-- SlackMonitor._handle_approve. The draft is fetched with no status check;
for an email draft the Gmail send and archive calls sit in one try block whose
except branch logs and returns early (sendOk / archiveOk model whether each
call raises). On the success path the status is set to sent unconditionally. -/
def handle_approve (now : Nat) (s : StoreState) (draft_id : String)
    (sendOk archiveOk : Bool) : StoreState × List Event :=
  match DraftStore.get s draft_id with
  | none => (s, [Event.logError ("Draft " ++ draft_id ++ " not found")])
  | some draft =>
    let final_text := DraftStore.get_final_text draft
    match draft.source with
    | DraftSource.email =>
      if sendOk then
        if archiveOk then
          approveFinish now s draft_id draft
            [Event.gmailSendReply draft.original_thread_id draft.original_from
               final_text draft.draft_subject,
             Event.gmailArchive draft.original_message_id]
        else
          (s, [Event.gmailSendReply draft.original_thread_id draft.original_from
                 final_text draft.draft_subject,
               Event.logError ("Failed to send email for draft " ++ draft_id)])
      else
        (s, [Event.gmailSendFailed draft_id,
             Event.logError ("Failed to send email for draft " ++ draft_id)])
    | DraftSource.slack => approveFinish now s draft_id draft []

/-- SlackMonitor._handle_reject: unconditional update_status to rejected, then
a best-effort notification update when the handle is truthy. -/
def handle_reject (now : Nat) (s : StoreState) (draft_id : String) :
    StoreState × List Event :=
  let s1 := DraftStore.update_status now s draft_id DraftStatus.rejected
  let evs := match DraftStore.get s1 draft_id with
    | some d =>
      match d.slack_notification_ts, d.slack_notification_channel with
      | some ts, some ch =>
        if ts != "" && ch != "" then [Event.notifyUpdateStatus ch ts "Rejected"] else []
      | _, _ => []
    | none => []
  (s1, evs)

/-- SlackMonitor._handle_skip: unconditional update_status to skipped, then a
best-effort notification update. -/
def handle_skip (now : Nat) (s : StoreState) (draft_id : String) :
    StoreState × List Event :=
  let s1 := DraftStore.update_status now s draft_id DraftStatus.skipped
  let evs := match DraftStore.get s1 draft_id with
    | some d =>
      match d.slack_notification_ts, d.slack_notification_channel with
      | some ts, some ch =>
        if ts != "" && ch != "" then [Event.notifyUpdateStatus ch ts "Skipped"] else []
      | _, _ => []
    | none => []
  (s1, evs)

/-- SlackMonitor._handle_edit_submit: unconditional update_edited_text (no
status check), then re-render the notification message when the handle is
truthy. -/
def handle_edit_submit (s : StoreState) (draft_id edited_text : String) :
    StoreState × List Event :=
  let s1 := DraftStore.update_edited_text s draft_id edited_text
  match DraftStore.get s1 draft_id with
  | none => (s1, [])
  | some d =>
    match d.slack_notification_ts, d.slack_notification_channel with
    | some ts, some ch =>
      if ts != "" && ch != "" then (s1, [Event.chatUpdate ch ts]) else (s1, [])
    | _, _ => (s1, [])

/-- The fields of the Config the message-event handler reads. -/
structure SlackConfig where
  slack_user_id : String
  slack_channel_ids : List String
deriving DecidableEq, Repr

/-- The fields of a Slack message event dict the handler reads. -/
structure SlackEvent where
  bot_id : Option String
  subtype : Option String
  user : String
  channel : String
  channel_type : String
  text : String
  ts : String
  thread_ts : Option String
deriving DecidableEq, Repr

/-- SlackMonitor._handle_message_event. The completion-service calls are
oracle parameters (classifyFn for SlackClassifier.classify, generateFn for
DraftGenerator.generate_slack_draft); the users_info / conversations_info
context lookups are the user_name / channel_name parameters; the fresh uuid
for the stored draft is new_draft_id. The guard chain, the is_processed check
before classification, the mark_processed call right after it and the ordering
of the ephemeral notification and the draft insert mirror the source. -/
def handle_message_event (now : Nat) (cfg : SlackConfig) (ev : SlackEvent)
    (classifyFn : SlackEvent → SlackClassification)
    (generateFn : SlackEvent → SlackClassification → String)
    (user_name channel_name : Option String) (new_draft_id : String)
    (s : StoreState) : StoreState × List Event :=
  if pyTruthy ev.bot_id || pyTruthy ev.subtype then (s, [])
  else if ev.user == cfg.slack_user_id then (s, [])
  else
    let is_dm := ev.channel_type == "im"
    let is_monitored := cfg.slack_channel_ids.contains ev.channel
    if !is_dm && !is_monitored then (s, [])
    else if DraftStore.is_processed s ev.ts "slack" then (s, [])
    else
      let classification := classifyFn ev
      -- classification.model_dump_json() abstracted as the summary string
      let s1 := DraftStore.mark_processed now s ev.ts "slack"
        (some classification.summary)
      if !classification.needs_response then
        (s1, [Event.classifySlack ev.ts, Event.markProcessedEv ev.ts "slack"])
      else
        let draft_text := generateFn ev classification
        let reply_thread_ts := pyOrStr ev.thread_ts ev.ts
        let chName := pyOrStr channel_name (if is_dm then "DM" else ev.channel)
        let s2 := (DraftStore.create now s1 new_draft_id DraftSource.slack
          (pyOrStr user_name ev.user) ev.text ev.ts draft_text
          (some chName) (some reply_thread_ts) (some ev.channel)
          none (some (classifyFn ev).urgency) (some (classifyFn ev).summary)
          none).1
        (s2, [Event.classifySlack ev.ts, Event.markProcessedEv ev.ts "slack",
              Event.generateDraft ev.ts,
              Event.sendEphemeralDraft ev.channel reply_thread_ts draft_text,
              Event.createDraftEv new_draft_id])

end SlackMonitor

/-- One message known to the Gmail snapshot: its position in the history
stream, its INBOX/UNREAD flag and its parsed form. -/
structure GmailMessage where
  historyIdx : Nat
  unread : Bool
  email : EmailMessage
deriving DecidableEq, Repr

/-- A snapshot of the Gmail account during one scan cycle: the known messages
and the current profile historyId (every known message sits at or below it). -/
structure GmailState where
  messages : List GmailMessage
  historyId : Nat
deriving DecidableEq, Repr

namespace EmailScanner

/-- GmailClient.get_unread_messages(max_results): the unread messages, capped. -/
def get_unread_messages (g : GmailState) (max_results : Nat) : List EmailMessage :=
  ((g.messages.filter (fun m => m.unread)).take max_results).map
    (fun m => m.email)

/-- GmailClient.get_new_messages_since(history_id): messages added strictly
after the given history position, capped by the history.list maxResults page
size (the source never paginates past the first page). -/
def get_new_messages_since (g : GmailState) (history_id : Nat)
    (max_results : Nat) : List EmailMessage :=
  ((g.messages.filter (fun m => history_id < m.historyIdx)).take max_results).map
    (fun m => m.email)

/-- EmailScanner._get_stored_history_id: the scan_state row for
gmail_history_id. -/
def get_stored_history_id (s : StoreState) : Option Nat :=
  s.scan_state

/-- EmailScanner._store_history_id: INSERT OR REPLACE of the single
scan_state row. -/
def store_history_id (s : StoreState) (history_id : Nat) : StoreState :=
  { s with scan_state := some history_id }

/-- Oracles for the external calls made while processing one email: the
classifier, the draft generator, the fresh draft uuid and the notification
handle returned by the Slack notifier. -/
structure ScanOracle where
  classifyFn : EmailMessage → EmailClassification
  generateFn : EmailMessage → String
  draftIdFn : EmailMessage → String
  notifTsFn : EmailMessage → String
  notifChFn : EmailMessage → String

/-- EmailScanner._process_email: classify, mark processed immediately, then
dispatch on the action — draft_response generates, stores and notifies;
fyi_only notifies; skip does nothing; archive archives. -/
def process_email (now : Nat) (o : ScanOracle) (email : EmailMessage)
    (s : StoreState) : StoreState × List Event :=
  let cls := o.classifyFn email
  -- classification.model_dump_json() abstracted as the summary string
  let s1 := DraftStore.mark_processed now s email.message_id "email"
    (some cls.summary)
  let evs := [Event.classifyEmail email.message_id,
              Event.markProcessedEv email.message_id "email"]
  match cls.action with
  | EmailAction.draft_response =>
    let draft_text := o.generateFn email
    let did := o.draftIdFn email
    let s2 := (DraftStore.create now s1 did DraftSource.email
      email.from_email email.body_snippet email.message_id draft_text
      (some email.subject) (some email.thread_id) none
      (some cls.category.value) (some cls.priority.value) (some cls.summary)
      (some email.subject)).1
    let s3 := DraftStore.update_slack_notification s2 did
      (o.notifTsFn email) (o.notifChFn email)
    (s3, evs ++ [Event.generateDraft email.message_id,
                 Event.createDraftEv did, Event.notifyEmailDraft did])
  | EmailAction.fyi_only => (s1, evs ++ [Event.notifyFyi email.message_id])
  | EmailAction.skip => (s1, evs)
  | EmailAction.archive => (s1, evs ++ [Event.gmailArchive email.message_id])

/-- The per-email loop of EmailScanner.scan: skip any email already recorded
as processed for source email, otherwise run _process_email. -/
def scanLoop (now : Nat) (o : ScanOracle) (emails : List EmailMessage)
    (s : StoreState) : StoreState × List Event :=
  match emails with
  | [] => (s, [])
  | e :: rest =>
    if DraftStore.is_processed s e.message_id "email" then
      scanLoop now o rest s
    else
      let r1 := process_email now o e s
      let r2 := scanLoop now o rest r1.1
      (r2.1, r1.2 ++ r2.2)

/-- The fetch step of EmailScanner.scan: incremental sync from the stored
cursor when present, else the initial bounded unread fetch. -/
def scanFetch (g : GmailState) (s : StoreState) : List EmailMessage :=
  match get_stored_history_id s with
  | some h => get_new_messages_since g h 20
  | none => get_unread_messages g 20

/-- EmailScanner.scan: read the stored cursor, fetch, store the current
historyId immediately (before processing, and also when the fetch is empty),
then iterate over the fetched emails. -/
def scan (now : Nat) (o : ScanOracle) (g : GmailState) (s : StoreState) :
    StoreState × List Event :=
  let emails := scanFetch g s
  let s1 := store_history_id s g.historyId
  if emails.isEmpty then (s1, [])
  else scanLoop now o emails s1

end EmailScanner

/-- A concrete email-source draft row used for the concrete evaluations. -/
def sampleEmailDraft (st : DraftStatus) : Draft :=
  { id := "d1"
    source := DraftSource.email
    status := st
    created_at := 0
    original_from := "alice@x"
    original_subject := some "Re: hi"
    original_body := "body"
    original_message_id := "m1"
    original_thread_id := some "t1"
    original_channel_id := none
    category := some "internal_action"
    priority := some "high"
    summary := some "sum"
    draft_text := "hello"
    draft_subject := some "Re: hi"
    slack_notification_ts := some "111.22"
    slack_notification_channel := some "C9"
    approved_at := none
    rejected_at := none
    sent_at := none
    edited_text := none }

/-- A store holding exactly one pending-review email draft. -/
def pendingStore : StoreState :=
  { drafts := [sampleEmailDraft DraftStatus.pending_review]
    processed := []
    scan_state := none }

/-- A store holding one already-sent email draft (sent_at recorded). -/
def sentStore : StoreState :=
  { drafts := [{ sampleEmailDraft DraftStatus.sent with sent_at := some 1 }]
    processed := []
    scan_state := none }

/-- Both branches of applyStatus keep the draft id. -/
lemma applyStatus_id (now : Nat) (st : DraftStatus) (d : Draft) :
    (DraftStore.applyStatus now st d).id = d.id := by
  cases st <;> rfl

/-- find? commutes with mapping a function that preserves the predicate. -/
lemma find?_map_pred_comm {α : Type} (p : α → Bool) (f : α → α)
    (hp : ∀ a, p (f a) = p a) (l : List α) :
    List.find? p (l.map f) = (List.find? p l).map f := by
  induction l with
  | nil => rfl
  | cons a l ih =>
    by_cases ha : p a = true
    · have hfa : p (f a) = true := by rw [hp]; exact ha
      rw [List.map_cons, List.find?_cons_of_pos _ hfa,
        List.find?_cons_of_pos _ ha]
      rfl
    · have hfa : ¬ p (f a) = true := by rw [hp]; simpa using ha
      rw [List.map_cons, List.find?_cons_of_neg _ hfa,
        List.find?_cons_of_neg _ (by simpa using ha), ih]

/-- Reading back a draft after update_status returns the stored row with the
column updates applied. -/
lemma get_update_status (now : Nat) (s : StoreState) (draft_id : String)
    (st : DraftStatus) :
    DraftStore.get (DraftStore.update_status now s draft_id st) draft_id
      = (DraftStore.get s draft_id).map (DraftStore.applyStatus now st) := by
  have hp : ∀ d : Draft,
      (((if (d.id == draft_id) = true then DraftStore.applyStatus now st d
          else d)).id == draft_id) = (d.id == draft_id) := by
    intro d
    by_cases h : (d.id == draft_id) = true
    · rw [if_pos h, applyStatus_id]
    · rw [if_neg h]
  simp only [DraftStore.get, DraftStore.update_status]
  rw [find?_map_pred_comm _ _ hp]
  cases hf : List.find? (fun d => d.id == draft_id) s.drafts with
  | none => rfl
  | some d0 =>
    have hps := List.find?_some hf
    show some _ = some _
    simp [hps]

/-- Claim C1: refuted on the code. update_status is an unconditional UPDATE
and _handle_approve never reads the current status, so a transition out of
pending_review is not compare-and-swap: after a first approve has moved the
draft to sent, a second approve re-invokes the Gmail send (a second send, with
no error signal), and a later reject still flips the status to rejected — the
draft transitions out of pending_review more than once. -/
theorem approve_transitions_lack_cas :
    (DraftStore.get (SlackMonitor.handle_approve 1 pendingStore "d1" true true).1
        "d1").map Draft.status = some DraftStatus.sent
    ∧ ((SlackMonitor.handle_approve 2
          (SlackMonitor.handle_approve 1 pendingStore "d1" true true).1
          "d1" true true).2).any isGmailSendReply = true
    ∧ ((SlackMonitor.handle_approve 2
          (SlackMonitor.handle_approve 1 pendingStore "d1" true true).1
          "d1" true true).2).any isLogError = false
    ∧ (DraftStore.get (SlackMonitor.handle_reject 3
          (SlackMonitor.handle_approve 1 pendingStore "d1" true true).1
          "d1").1 "d1").map Draft.status = some DraftStatus.rejected := by
  decide

/-- Claim C2: refuted on the code. Approving an already-sent draft is not a
no-op: _handle_approve never checks the status, so the second approval
re-invokes the Gmail send and archive side effects and rewrites sent_at. -/
theorem approve_on_sent_draft_resends :
    (DraftStore.get (SlackMonitor.handle_approve 1 pendingStore "d1" true true).1
        "d1").map Draft.sent_at = some (some 1)
    ∧ ((SlackMonitor.handle_approve 2
          (SlackMonitor.handle_approve 1 pendingStore "d1" true true).1
          "d1" true true).2).any isGmailSendReply = true
    ∧ ((SlackMonitor.handle_approve 2
          (SlackMonitor.handle_approve 1 pendingStore "d1" true true).1
          "d1" true true).2).any isGmailArchive = true
    ∧ (DraftStore.get (SlackMonitor.handle_approve 2
          (SlackMonitor.handle_approve 1 pendingStore "d1" true true).1
          "d1" true true).1 "d1").map Draft.sent_at = some (some 2) := by
  decide

/-- Claim C3: refuted on the code. The skip transition stores status skipped
with no terminal timestamp at all (the schema has no skipped_at or expired_at
column), and because transitions are unguarded a reject followed by an approve
leaves two terminal timestamps (rejected_at and sent_at) on one sent draft. -/
theorem skip_sets_no_terminal_timestamp :
    (DraftStore.get (SlackMonitor.handle_skip 1 pendingStore "d1").1 "d1").map
        Draft.status = some DraftStatus.skipped
    ∧ (DraftStore.get (SlackMonitor.handle_skip 1 pendingStore "d1").1
        "d1").map Draft.approved_at = some none
    ∧ (DraftStore.get (SlackMonitor.handle_skip 1 pendingStore "d1").1
        "d1").map Draft.rejected_at = some none
    ∧ (DraftStore.get (SlackMonitor.handle_skip 1 pendingStore "d1").1
        "d1").map Draft.sent_at = some none
    ∧ (DraftStore.get (SlackMonitor.handle_approve 2
          (SlackMonitor.handle_reject 1 pendingStore "d1").1
          "d1" true true).1 "d1").map Draft.status = some DraftStatus.sent
    ∧ (DraftStore.get (SlackMonitor.handle_approve 2
          (SlackMonitor.handle_reject 1 pendingStore "d1").1
          "d1" true true).1 "d1").map Draft.rejected_at = some (some 1)
    ∧ (DraftStore.get (SlackMonitor.handle_approve 2
          (SlackMonitor.handle_reject 1 pendingStore "d1").1
          "d1" true true).1 "d1").map Draft.sent_at = some (some 2) := by
  decide

/-- Claim C5: refuted on the code. The processed_messages schema declares
PRIMARY KEY (message_id) alone, so marking ("X", email) after ("X", slack) is
silently ignored and is_processed("X", email) stays false — the guard is not
keyed by the (message id, source) pair. Re-marking the same pair is indeed a
no-op (one record), but cross-source independence fails. -/
theorem mark_processed_key_ignores_source :
    DraftStore.is_processed
        (DraftStore.mark_processed 1 ⟨[], [], none⟩ "X" "slack" none)
        "X" "slack" = true
    ∧ (DraftStore.mark_processed 3
        (DraftStore.mark_processed 1 ⟨[], [], none⟩ "X" "slack" none)
        "X" "slack" none).processed.length = 1
    ∧ DraftStore.is_processed
        (DraftStore.mark_processed 2
          (DraftStore.mark_processed 1 ⟨[], [], none⟩ "X" "slack" none)
          "X" "email" none)
        "X" "email" = false
    ∧ (DraftStore.mark_processed 2
        (DraftStore.mark_processed 1 ⟨[], [], none⟩ "X" "slack" none)
        "X" "email" none).processed.length = 1 := by
  decide

/-- Claim C9: refuted on the code. update_edited_text and _handle_edit_submit
perform no status check: submitting an edit for a draft already in status sent
stores the edited text, reports no error, and re-renders the approval buttons,
after which a further approve re-sends the draft with the new text — a sent
draft is resurrected rather than the edit being rejected. -/
theorem record_edit_allowed_in_terminal_status :
    (DraftStore.get (SlackMonitor.handle_edit_submit sentStore "d1" "new text").1
        "d1").map Draft.edited_text = some (some "new text")
    ∧ ((SlackMonitor.handle_edit_submit sentStore "d1" "new text").2).any
        isLogError = false
    ∧ (DraftStore.get (SlackMonitor.handle_edit_submit sentStore "d1" "new text").1
        "d1").map Draft.status = some DraftStatus.sent
    ∧ Event.gmailSendReply (some "t1") "alice@x" "new text" (some "Re: hi")
        ∈ (SlackMonitor.handle_approve 2
            (SlackMonitor.handle_edit_submit sentStore "d1" "new text").1
            "d1" true true).2 := by
  decide

/-- Claim C7: get_final_text is a pure function of the draft returning
edited_text when it is set (non-null and non-empty, Python truthiness) and
draft_text otherwise, for a draft in any status, and the approve path passes
exactly this value as the body of the external Gmail send (the first event of
the successful approve trace). -/
theorem final_text_prefers_edited_text :
    (∀ d : Draft,
      (d.edited_text = none → DraftStore.get_final_text d = d.draft_text) ∧
      (∀ t, d.edited_text = some t → t ≠ "" → DraftStore.get_final_text d = t)) ∧
    (∀ (now : Nat) (s : StoreState) (draft_id : String) (d : Draft),
      DraftStore.get s draft_id = some d → d.source = DraftSource.email →
      ((SlackMonitor.handle_approve now s draft_id true true).2).head? =
        some (Event.gmailSendReply d.original_thread_id d.original_from
          (DraftStore.get_final_text d) d.draft_subject)) := by
  constructor
  · intro d
    constructor
    · intro h; simp [DraftStore.get_final_text, h]
    · intro t ht hne; simp [DraftStore.get_final_text, ht, hne]
  · intro now s draft_id d hd hs
    simp [SlackMonitor.handle_approve, hd, hs, SlackMonitor.approveFinish]

/-- The pending email draft of pendingStore with a user edit recorded. -/
def editedDraft : Draft :=
  { sampleEmailDraft DraftStatus.pending_review with edited_text := some "ed" }

/-- A store holding exactly editedDraft. -/
def editedStore : StoreState :=
  { drafts := [editedDraft], processed := [], scan_state := none }

/-- Witness for C7 at a concrete edited draft: the final text is the edited
text and the approve trace sends exactly it. -/
theorem final_text_prefers_edited_text_witness :
    DraftStore.get_final_text editedDraft = "ed" ∧
    ((SlackMonitor.handle_approve 1 editedStore "d1" true true).2).head? =
      some (Event.gmailSendReply (some "t1") "alice@x" "ed" (some "Re: hi")) := by
  constructor
  · exact (final_text_prefers_edited_text.1 editedDraft).2 "ed" rfl (by decide)
  · exact final_text_prefers_edited_text.2 1 editedStore "d1" editedDraft
      (by decide) rfl

/-- Claim C4: when the external Gmail send fails while approving an email
draft, the store is left entirely unchanged (status not advanced, no sent
timestamp), an error is logged, no send event is emitted, the draft is still
readable unchanged, and a retry of the approve afterwards succeeds and moves
the draft to sent. -/
theorem send_failure_leaves_draft_actionable :
    ∀ (now now2 : Nat) (s : StoreState) (draft_id : String) (d : Draft)
      (archiveOk : Bool),
      DraftStore.get s draft_id = some d → d.source = DraftSource.email →
      d.status = DraftStatus.pending_review →
      (SlackMonitor.handle_approve now s draft_id false archiveOk).1 = s ∧
      ((SlackMonitor.handle_approve now s draft_id false archiveOk).2).any
        isLogError = true ∧
      ((SlackMonitor.handle_approve now s draft_id false archiveOk).2).any
        isGmailSendReply = false ∧
      DraftStore.get (SlackMonitor.handle_approve now s draft_id false
        archiveOk).1 draft_id = some d ∧
      (DraftStore.get (SlackMonitor.handle_approve now2
          (SlackMonitor.handle_approve now s draft_id false archiveOk).1
          draft_id true true).1 draft_id).map Draft.status
        = some DraftStatus.sent := by
  intro now now2 s draft_id d aok hd hs hp
  have hred : SlackMonitor.handle_approve now s draft_id false aok
      = (s, [Event.gmailSendFailed draft_id,
             Event.logError ("Failed to send email for draft " ++ draft_id)]) := by
    simp [SlackMonitor.handle_approve, hd, hs]
  have hred2 : (SlackMonitor.handle_approve now2 s draft_id true true).1
      = DraftStore.update_status now2 s draft_id DraftStatus.sent := by
    simp [SlackMonitor.handle_approve, hd, hs, SlackMonitor.approveFinish]
  refine ⟨by rw [hred], ?_, ?_, ?_, ?_⟩
  · rw [hred]; simp [isLogError]
  · rw [hred]; simp [isLogError, isGmailSendReply]
  · rw [hred]; exact hd
  · rw [hred]
    rw [hred2, get_update_status, hd]
    simp [DraftStore.applyStatus]

/-- Witness for C4 at the concrete pending email draft: failed send leaves
the store unchanged and logs; the retry sends successfully. -/
theorem send_failure_leaves_draft_actionable_witness :
    (SlackMonitor.handle_approve 1 pendingStore "d1" false true).1
      = pendingStore ∧
    ((SlackMonitor.handle_approve 1 pendingStore "d1" false true).2).any
      isLogError = true ∧
    ((SlackMonitor.handle_approve 1 pendingStore "d1" false true).2).any
      isGmailSendReply = false ∧
    DraftStore.get (SlackMonitor.handle_approve 1 pendingStore "d1" false
      true).1 "d1" = some (sampleEmailDraft DraftStatus.pending_review) ∧
    (DraftStore.get (SlackMonitor.handle_approve 2
        (SlackMonitor.handle_approve 1 pendingStore "d1" false true).1
        "d1" true true).1 "d1").map Draft.status = some DraftStatus.sent := by
  exact send_failure_leaves_draft_actionable 1 2 pendingStore "d1"
    (sampleEmailDraft DraftStatus.pending_review) true (by decide) rfl rfl

/-- Claim C8: when the completion response cannot be parsed, classify returns
the safe default — standard priority (the lowest rank), action fyi_only (not
archive) — without raising, for every message and every malformed response;
and the scanner routes that classification to a human FYI notification with no
archive side effect. -/
theorem classifier_malformed_degrades_safely :
    ∀ (err : String) (email : EmailMessage),
      EmailClassifier.classify (Except.error err) email
        = EmailClassifier.safeDefault email ∧
      (EmailClassifier.classify (Except.error err) email).priority
        = EmailPriority.standard ∧
      (∀ p : EmailPriority, EmailPriority.rank EmailPriority.standard
        ≤ EmailPriority.rank p) ∧
      (EmailClassifier.classify (Except.error err) email).action
        = EmailAction.fyi_only ∧
      (∀ (now : Nat) (o : EmailScanner.ScanOracle) (s : StoreState),
        o.classifyFn email = EmailClassifier.classify (Except.error err) email →
        (EmailScanner.process_email now o email s).2
          = [Event.classifyEmail email.message_id,
             Event.markProcessedEv email.message_id "email",
             Event.notifyFyi email.message_id]) := by
  intro err email
  refine ⟨rfl, rfl, ?_, rfl, ?_⟩
  · intro p; cases p <;> simp [EmailPriority.rank]
  · intro now o s ho
    simp [EmailScanner.process_email, ho, EmailClassifier.classify,
      EmailClassifier.safeDefault]

/-- An oracle whose classifier always hits the malformed-response fallback. -/
def fyiOracle : EmailScanner.ScanOracle :=
  { classifyFn := fun e => EmailClassifier.classify (Except.error "bad json") e
    generateFn := fun _ => "g"
    draftIdFn := fun _ => "id0"
    notifTsFn := fun _ => "ts0"
    notifChFn := fun _ => "ch0" }

/-- A concrete incoming email for the witnesses. -/
def sampleEmail : EmailMessage :=
  { message_id := "m1", thread_id := "t1", from_email := "bob@y",
    from_name := none, subject := "Hi", body_snippet := "b", is_reply := false }

/-- Witness for C8 at a concrete email: the fallback classification is the
safe default and the scanner emits exactly an FYI notification for it. -/
theorem classifier_malformed_degrades_safely_witness :
    EmailClassifier.classify (Except.error "bad json") sampleEmail
      = EmailClassifier.safeDefault sampleEmail ∧
    (EmailScanner.process_email 0 fyiOracle sampleEmail ⟨[], [], none⟩).2
      = [Event.classifyEmail "m1", Event.markProcessedEv "m1" "email",
         Event.notifyFyi "m1"] := by
  refine ⟨(classifier_malformed_degrades_safely "bad json" sampleEmail).1, ?_⟩
  exact (classifier_malformed_degrades_safely "bad json"
    sampleEmail).2.2.2.2 0 fyiOracle ⟨[], [], none⟩ rfl

/-- The guard chain of _handle_message_event: not a bot/subtyped message, not
the owner, and either a DM or a monitored channel. -/
def slackAdmissible (cfg : SlackMonitor.SlackConfig)
    (ev : SlackMonitor.SlackEvent) : Bool :=
  !(pyTruthy ev.bot_id || pyTruthy ev.subtype) &&
  !(ev.user == cfg.slack_user_id) &&
  (ev.channel_type == "im" || cfg.slack_channel_ids.contains ev.channel)

/-- Claim C6: in both admission paths, an already-processed message is never
classified (the email loop skips it; the Slack handler returns doing nothing),
and an admitted message is classified first, marked processed immediately
after, and only then do retriable side effects (generation, draft creation,
notification, archiving) occur. -/
theorem dedup_check_and_mark_ordering :
    (∀ (now : Nat) (o : EmailScanner.ScanOracle) (email : EmailMessage)
        (s : StoreState), ∃ rest,
      (EmailScanner.process_email now o email s).2
        = Event.classifyEmail email.message_id
          :: Event.markProcessedEv email.message_id "email" :: rest ∧
      rest.all retriableSideEffect = true) ∧
    (∀ (now : Nat) (o : EmailScanner.ScanOracle) (e : EmailMessage)
        (rest : List EmailMessage) (s : StoreState),
      DraftStore.is_processed s e.message_id "email" = true →
      EmailScanner.scanLoop now o (e :: rest) s
        = EmailScanner.scanLoop now o rest s) ∧
    (∀ (now : Nat) (cfg : SlackMonitor.SlackConfig)
        (ev : SlackMonitor.SlackEvent)
        (cf : SlackMonitor.SlackEvent → SlackClassification)
        (gf : SlackMonitor.SlackEvent → SlackClassification → String)
        (un cn : Option String) (did : String) (s : StoreState),
      slackAdmissible cfg ev = true →
      DraftStore.is_processed s ev.ts "slack" = true →
      SlackMonitor.handle_message_event now cfg ev cf gf un cn did s
        = (s, [])) ∧
    (∀ (now : Nat) (cfg : SlackMonitor.SlackConfig)
        (ev : SlackMonitor.SlackEvent)
        (cf : SlackMonitor.SlackEvent → SlackClassification)
        (gf : SlackMonitor.SlackEvent → SlackClassification → String)
        (un cn : Option String) (did : String) (s : StoreState),
      slackAdmissible cfg ev = true →
      DraftStore.is_processed s ev.ts "slack" = false → ∃ rest,
      (SlackMonitor.handle_message_event now cfg ev cf gf un cn did s).2
        = Event.classifySlack ev.ts
          :: Event.markProcessedEv ev.ts "slack" :: rest ∧
      rest.all retriableSideEffect = true) := by
  refine ⟨?_, ?_, ?_, ?_⟩
  · intro now o email s
    cases hact : (o.classifyFn email).action with
    | draft_response =>
      exact ⟨[Event.generateDraft email.message_id,
              Event.createDraftEv (o.draftIdFn email),
              Event.notifyEmailDraft (o.draftIdFn email)],
        by simp [EmailScanner.process_email, hact], rfl⟩
    | fyi_only =>
      exact ⟨[Event.notifyFyi email.message_id],
        by simp [EmailScanner.process_email, hact], rfl⟩
    | skip =>
      exact ⟨[], by simp [EmailScanner.process_email, hact], rfl⟩
    | archive =>
      exact ⟨[Event.gmailArchive email.message_id],
        by simp [EmailScanner.process_email, hact], rfl⟩
  · intro now o e rest s h
    simp only [EmailScanner.scanLoop, h, if_true]
  · intro now cfg ev cf gf un cn did s hadm hproc
    simp only [slackAdmissible, Bool.and_eq_true, Bool.not_eq_true'] at hadm
    obtain ⟨⟨h1, h2⟩, h3⟩ := hadm
    have h4 : (!(ev.channel_type == "im") &&
        !(cfg.slack_channel_ids.contains ev.channel)) = false := by
      rw [← Bool.not_or, h3]; rfl
    simp [SlackMonitor.handle_message_event, h1, h2, h4, hproc]
  · intro now cfg ev cf gf un cn did s hadm hproc
    simp only [slackAdmissible, Bool.and_eq_true, Bool.not_eq_true'] at hadm
    obtain ⟨⟨h1, h2⟩, h3⟩ := hadm
    have h5 : ¬(¬ev.channel_type = "im" ∧ ev.channel ∉ cfg.slack_channel_ids) := by
      have h3p : ev.channel_type = "im" ∨ ev.channel ∈ cfg.slack_channel_ids := by
        simpa using h3
      tauto
    cases hn : (cf ev).needs_response with
    | false =>
      exact ⟨[], by simp [SlackMonitor.handle_message_event, h1, h2, h5,
        hproc, hn], rfl⟩
    | true =>
      exact ⟨[Event.generateDraft ev.ts,
              Event.sendEphemeralDraft ev.channel (pyOrStr ev.thread_ts ev.ts)
                (gf ev (cf ev)),
              Event.createDraftEv did],
        by simp [SlackMonitor.handle_message_event, h1, h2, h5, hproc, hn], rfl⟩

/-- A store whose processed_messages table records sampleEmail as processed
for source email. -/
def processedStore : StoreState :=
  { drafts := [], processed := [⟨"m1", "email", 0, none⟩], scan_state := none }

/-- A monitor config and admissible event for the Slack witnesses. -/
def cfgW : SlackMonitor.SlackConfig :=
  { slack_user_id := "U0", slack_channel_ids := ["CHAN"] }

/-- A concrete admissible Slack message event. -/
def evW : SlackMonitor.SlackEvent :=
  { bot_id := none, subtype := none, user := "U7", channel := "CHAN",
    channel_type := "channel", text := "hello", ts := "111.5",
    thread_ts := none }

/-- A store whose processed_messages table records evW as processed for
source slack. -/
def slackProcessedStore : StoreState :=
  { drafts := [], processed := [⟨"111.5", "slack", 0, none⟩], scan_state := none }

/-- A constant Slack classifier oracle that wants a response. -/
def cfW : SlackMonitor.SlackEvent → SlackClassification :=
  fun _ => { needs_response := true, reason := "r", urgency := "high",
             summary := "s", draft_guidance := none }

/-- A constant Slack draft generator oracle. -/
def gfW : SlackMonitor.SlackEvent → SlackClassification → String :=
  fun _ _ => "g"

/-- Witness for C6 at concrete inputs: the email trace starts classify-then-
mark with only side effects after; an already-processed email is skipped; an
already-processed Slack event does nothing; a fresh Slack event is classified
then marked before its side effects. -/
theorem dedup_check_and_mark_ordering_witness :
    (∃ rest, (EmailScanner.process_email 0 fyiOracle sampleEmail
        ⟨[], [], none⟩).2
      = Event.classifyEmail "m1" :: Event.markProcessedEv "m1" "email" :: rest ∧
      rest.all retriableSideEffect = true) ∧
    EmailScanner.scanLoop 0 fyiOracle [sampleEmail] processedStore
      = EmailScanner.scanLoop 0 fyiOracle [] processedStore ∧
    SlackMonitor.handle_message_event 0 cfgW evW cfW gfW none none "d9"
        slackProcessedStore
      = (slackProcessedStore, []) ∧
    (∃ rest, (SlackMonitor.handle_message_event 0 cfgW evW cfW gfW none none
        "d9" ⟨[], [], none⟩).2
      = Event.classifySlack "111.5" :: Event.markProcessedEv "111.5" "slack"
          :: rest ∧
      rest.all retriableSideEffect = true) := by
  refine ⟨?_, ?_, ?_, ?_⟩
  · exact dedup_check_and_mark_ordering.1 0 fyiOracle sampleEmail ⟨[], [], none⟩
  · exact dedup_check_and_mark_ordering.2.1 0 fyiOracle sampleEmail []
      processedStore (by decide)
  · exact dedup_check_and_mark_ordering.2.2.1 0 cfgW evW cfW gfW none none
      "d9" slackProcessedStore (by decide) (by decide)
  · exact dedup_check_and_mark_ordering.2.2.2 0 cfgW evW cfW gfW none none
      "d9" ⟨[], [], none⟩ (by decide) (by decide)

/-- mark_processed never removes rows. -/
lemma mark_processed_mem (now : Nat) (s : StoreState) (mid src : String)
    (cj : Option String) (r : ProcessedRow) (h : r ∈ s.processed) :
    r ∈ (DraftStore.mark_processed now s mid src cj).processed := by
  unfold DraftStore.mark_processed
  split
  · exact h
  · exact List.mem_append_left _ h

/-- After mark_processed some row carries the marked message id (either the
pre-existing row that blocked the insert, or the inserted row). -/
lemma mark_processed_covers (now : Nat) (s : StoreState) (mid src : String)
    (cj : Option String) :
    ∃ r ∈ (DraftStore.mark_processed now s mid src cj).processed,
      r.message_id = mid := by
  unfold DraftStore.mark_processed
  split
  · next h =>
    obtain ⟨r, hr, hb⟩ := List.any_eq_true.mp h
    exact ⟨r, hr, by simpa using hb⟩
  · exact ⟨⟨mid, src, now, cj⟩, List.mem_append_right _ (by simp), rfl⟩

/-- mark_processed leaves scan_state untouched. -/
lemma mark_processed_scan_state (now : Nat) (s : StoreState) (mid src : String)
    (cj : Option String) :
    (DraftStore.mark_processed now s mid src cj).scan_state = s.scan_state := by
  unfold DraftStore.mark_processed
  split <;> rfl

/-- The processed table after _process_email equals the one after its
mark_processed call (the draft insert and notification update do not touch
it). -/
lemma process_email_processed (now : Nat) (o : EmailScanner.ScanOracle)
    (e : EmailMessage) (s : StoreState) :
    ((EmailScanner.process_email now o e s).1).processed
      = (DraftStore.mark_processed now s e.message_id "email"
          (some (o.classifyFn e).summary)).processed := by
  cases hact : (o.classifyFn e).action <;>
    simp [EmailScanner.process_email, hact, DraftStore.create,
      DraftStore.update_slack_notification]

/-- _process_email leaves scan_state untouched. -/
lemma process_email_scan_state (now : Nat) (o : EmailScanner.ScanOracle)
    (e : EmailMessage) (s : StoreState) :
    ((EmailScanner.process_email now o e s).1).scan_state = s.scan_state := by
  cases hact : (o.classifyFn e).action <;>
    simp [EmailScanner.process_email, hact, DraftStore.create,
      DraftStore.update_slack_notification, mark_processed_scan_state]

/-- The scan loop never removes processed rows. -/
lemma scanLoop_processed_mem (now : Nat) (o : EmailScanner.ScanOracle) :
    ∀ (l : List EmailMessage) (s : StoreState) (r : ProcessedRow),
      r ∈ s.processed →
      r ∈ ((EmailScanner.scanLoop now o l s).1).processed := by
  intro l
  induction l with
  | nil => intro s r h; exact h
  | cons e rest ih =>
    intro s r h
    by_cases hp : DraftStore.is_processed s e.message_id "email" = true
    · simp only [EmailScanner.scanLoop]
      rw [if_pos hp]
      exact ih s r h
    · simp only [EmailScanner.scanLoop]
      rw [if_neg hp]
      refine ih _ r ?_
      rw [process_email_processed]
      exact mark_processed_mem _ _ _ _ _ r h

/-- The scan loop leaves scan_state untouched. -/
lemma scanLoop_scan_state (now : Nat) (o : EmailScanner.ScanOracle) :
    ∀ (l : List EmailMessage) (s : StoreState),
      ((EmailScanner.scanLoop now o l s).1).scan_state = s.scan_state := by
  intro l
  induction l with
  | nil => intro s; rfl
  | cons e rest ih =>
    intro s
    by_cases hp : DraftStore.is_processed s e.message_id "email" = true
    · simp only [EmailScanner.scanLoop]
      rw [if_pos hp]
      exact ih s
    · simp only [EmailScanner.scanLoop]
      rw [if_neg hp]
      rw [ih, process_email_scan_state]

/-- Every email iterated by the scan loop ends the cycle recorded in the
processed table (it was either already recorded or marked during the loop). -/
lemma scanLoop_covers (now : Nat) (o : EmailScanner.ScanOracle) :
    ∀ (l : List EmailMessage) (s : StoreState) (e : EmailMessage),
      e ∈ l →
      ∃ r ∈ ((EmailScanner.scanLoop now o l s).1).processed,
        r.message_id = e.message_id := by
  intro l
  induction l with
  | nil => intro s e h; exact absurd h (List.not_mem_nil e)
  | cons e0 rest ih =>
    intro s e he
    rcases List.mem_cons.mp he with rfl | hmem
    · by_cases hp : DraftStore.is_processed s e.message_id "email" = true
      · obtain ⟨r, hr, hb⟩ := List.any_eq_true.mp hp
        have hid : r.message_id = e.message_id := by
          have := (Bool.and_eq_true _ _).mp hb
          simpa using this.1
        simp only [EmailScanner.scanLoop]
        rw [if_pos hp]
        exact ⟨r, scanLoop_processed_mem now o rest s r hr, hid⟩
      · simp only [EmailScanner.scanLoop]
        rw [if_neg hp]
        obtain ⟨r, hr, hid⟩ :
            ∃ r ∈ ((EmailScanner.process_email now o e s).1).processed,
              r.message_id = e.message_id := by
          rw [process_email_processed]
          exact mark_processed_covers _ _ _ _ _
        exact ⟨r, scanLoop_processed_mem now o rest _ r hr, hid⟩
    · by_cases hp : DraftStore.is_processed s e0.message_id "email" = true
      · simp only [EmailScanner.scanLoop]
        rw [if_pos hp]
        exact ih s e hmem
      · simp only [EmailScanner.scanLoop]
        rw [if_neg hp]
        exact ih _ e hmem

/-- Claim C10: each scan cycle reads the stored cursor at the start and
requests only messages strictly newer than it when present; the cursor is
refreshed to the current historyId in every cycle, including cycles with zero
fetched messages; and every email fetched in the cycle is recorded in the
processed table by the end of the same cycle, so advancing the cursor loses no
fetched message. -/
theorem scan_cursor_read_and_refresh :
    (∀ (now : Nat) (o : EmailScanner.ScanOracle) (g : GmailState)
        (s : StoreState),
      ((EmailScanner.scan now o g s).1).scan_state = some g.historyId) ∧
    (∀ (g : GmailState) (s : StoreState) (h : Nat) (e : EmailMessage),
      EmailScanner.get_stored_history_id s = some h →
      e ∈ EmailScanner.scanFetch g s →
      ∃ m ∈ g.messages, m.email = e ∧ h < m.historyIdx) ∧
    (∀ (now : Nat) (o : EmailScanner.ScanOracle) (g : GmailState)
        (s : StoreState) (e : EmailMessage),
      e ∈ EmailScanner.scanFetch g s →
      ∃ r ∈ ((EmailScanner.scan now o g s).1).processed,
        r.message_id = e.message_id) := by
  refine ⟨?_, ?_, ?_⟩
  · intro now o g s
    simp only [EmailScanner.scan]
    split
    · rfl
    · rw [scanLoop_scan_state]
      rfl
  · intro g s h e hh he
    simp only [EmailScanner.scanFetch, hh] at he
    simp only [EmailScanner.get_new_messages_since] at he
    obtain ⟨m, hm, rfl⟩ := List.mem_map.mp he
    have hm2 : m ∈ (g.messages.filter (fun m => h < m.historyIdx)) :=
      (List.take_sublist _ _).subset hm
    obtain ⟨hmem, hcond⟩ := List.mem_filter.mp hm2
    exact ⟨m, hmem, rfl, by simpa using hcond⟩
  · intro now o g s e he
    simp only [EmailScanner.scan]
    split
    · next hempty =>
      rw [List.isEmpty_iff] at hempty
      rw [hempty] at he
      exact absurd he (List.not_mem_nil e)
    · exact scanLoop_covers now o _ _ e he

/-- A Gmail snapshot with one new message past the stored cursor. -/
def gmailW : GmailState :=
  { messages := [⟨5, true, sampleEmail⟩], historyId := 7 }

/-- A store whose scan_state holds cursor 3. -/
def cursorStore : StoreState :=
  { drafts := [], processed := [], scan_state := some 3 }

/-- Witness for C10 at a concrete cycle: the cursor is refreshed to the
current historyId, the fetched message is strictly newer than the stored
cursor, and it is recorded as processed by cycle end. -/
theorem scan_cursor_read_and_refresh_witness :
    ((EmailScanner.scan 0 fyiOracle gmailW cursorStore).1).scan_state
      = some 7 ∧
    (∃ m ∈ gmailW.messages, m.email = sampleEmail ∧ 3 < m.historyIdx) ∧
    (∃ r ∈ ((EmailScanner.scan 0 fyiOracle gmailW cursorStore).1).processed,
      r.message_id = "m1") := by
  refine ⟨?_, ?_, ?_⟩
  · exact scan_cursor_read_and_refresh.1 0 fyiOracle gmailW cursorStore
  · exact scan_cursor_read_and_refresh.2.1 gmailW cursorStore 3 sampleEmail
      rfl (by decide)
  · exact scan_cursor_read_and_refresh.2.2 0 fyiOracle gmailW cursorStore
      sampleEmail (by decide)
